import Mathlib

/-!
A shallow embedding of the pipeline-construction and raster-compositing core
of lidar2dems (file l2d/pdal.py), together with theorems settling the frozen
claims about it.

Python strings are modelled as character lists (`Str`): the Python builtin
`sorted` compares strings lexicographically by code point, which is exactly
the derived linear order on `List Char`.  Rasters as seen through gippy are
modelled as cell-value functions over flattened cell indices together with
the no-data sentinel of the band; external collaborators (the filesystem, the
PDAL engine, the scipy `griddata` interpolator) are oracle parameters.
-/

/-- A Python string: its list of characters. -/
abbrev Str : Type := List Char

/-- Python `os.path.abspath`, modelled as the identity: the development only
feeds it paths that are already absolute, and path canonicalisation belongs
to the operating system, not to this code. -/
def abspath (p : Str) : Str := p

/-- Python `os.path.join` for a directory and one component. -/
def joinPath (dir file : Str) : Str :=
  if dir = [] then file else dir ++ ("/".data) ++ file

/-- The Python builtin `sorted(filenames)` at pdal.py:401: ascending
lexicographic code-point order on strings, realised as an insertion sort
into the linear order of `List Char`. -/
def sortStrings (l : List Str) : List Str :=
  l.insertionSort (fun a b => a ≤ b)

/- ------------------------------------------------------------------ -/
/- XML pipeline description (lxml element tree)                        -/
/- ------------------------------------------------------------------ -/

/-- One element of the lxml tree built by the `_xml_*` helpers: the tag, the
distinguishing attribute (the `type=` of Pipeline/Filter/Reader/Writer
elements, the `name=` of Option elements), the text payload, and the child
elements in document order. -/
structure Xml where
  tag : Str
  attr : Str
  text : Str
  children : List Xml

/-- The Reader element `_xml_add_reader` builds (pdal.py:190-194): a
`readers.las` Reader holding a filename Option. -/
def readerXml (filename : Str) : Xml :=
  ⟨("Reader".data), ("readers.las".data), [],
    [⟨("Option".data), ("filename".data), abspath filename, []⟩]⟩

/-- `_xml_add_reader` (pdal.py:190-194): append a LAS Reader element to the
given parent element; the source mutates the parent in place and returns the
child, and callers keep using the parent, so the updated parent is returned
here. -/
def _xml_add_reader (xml : Xml) (filename : Str) : Xml :=
  { xml with children := xml.children ++ [readerXml filename] }

/-- `_xml_add_readers` (pdal.py:197-205): when more than one filename is
given, create a `filters.merge` Filter under the parent and attach one Reader
per filename beneath it; otherwise attach the Readers (zero or one of them)
directly to the parent. -/
def _xml_add_readers (xml : Xml) (filenames : List Str) : Xml :=
  if 1 < filenames.length then
    { xml with children := xml.children ++
        [filenames.foldl _xml_add_reader ⟨("Filter".data), ("filters.merge".data), [], []⟩] }
  else
    filenames.foldl _xml_add_reader xml

/-- Number of direct children of an element that are merge Filter elements. -/
def mergeCount (xml : Xml) : Nat :=
  xml.children.countP (fun c => c.tag == ("Filter".data) && c.attr == ("filters.merge".data))

/- ------------------------------------------------------------------ -/
/- gap_fill (pdal.py:393-438)                                          -/
/- ------------------------------------------------------------------ -/

/-- A single-band raster as `gap_fill` and `create_chm` see one through
gippy: a total cell-value function over flattened cell indices plus the
no-data sentinel of the band. -/
structure Raster where
  cell : Nat → Int
  nodata : Int

/-- The only exception `gap_fill` raises itself (pdal.py:398-399, the bare
`Exception` the spec names EmptyInputError). -/
inductive GapFillError where
  | emptyInput
deriving DecidableEq

/-- One step of the progressive fill (pdal.py:406-408):
`locs = numpy.where(arr == nodata); arr[locs] = imgs[i][0].Read()[locs]` -
only the cells of the working buffer still equal to the sentinel receive the
value of the next raster. -/
def fillStep (nodata : Int) (arr img : Nat → Int) : Nat → Int :=
  fun i => if arr i = nodata then img i else arr i

/-- `gap_fill` (pdal.py:393-438), for the `site=None` path (the optional
boundary re-clip at pdal.py:423-434 is a post-step on the written file and is
outside every claim).  `read` is the gippy raster-reading oracle mapping a
filename to its band, `numcells` the common flattened grid size, and
`interp` the scipy `griddata` oracle, given the known-good points, the
still-bad locations, and the location to evaluate.  The steps mirror the
source line by line: raise on an empty list, sort the filenames, take the
sentinel and working buffer from the first sorted raster, progressively fill
from the remaining rasters, then interpolate the remaining bad cells. -/
def gap_fill (filenames : List Str) (read : Str → Raster) (numcells : Nat)
    (interp : List (Nat × Int) → List Nat → Nat → Int) :
    Except GapFillError Raster :=
  if filenames.length = 0 then .error .emptyInput
  else
    let sortedNames := sortStrings filenames
    let imgs := sortedNames.map read
    let first := imgs.headD ⟨fun _ => 0, 0⟩
    let nodata := first.nodata
    let arr1 := (imgs.drop 1).foldl (fun a img => fillStep nodata a img.cell) first.cell
    let goodlocs := (List.range numcells).filter (fun i => arr1 i != nodata)
    let badlocs := (List.range numcells).filter (fun i => arr1 i == nodata)
    let goodpts := goodlocs.map (fun i => (i, arr1 i))
    .ok ⟨fun i => if arr1 i = nodata then interp goodpts badlocs i else arr1 i, nodata⟩

/- ------------------------------------------------------------------ -/
/- create_chm (pdal.py:379-391)                                        -/
/- ------------------------------------------------------------------ -/

/-- A two-dimensional raster band read in full, as `create_chm` handles one:
the row-major cell array plus the no-data sentinel of the band. -/
structure Raster2D where
  data : List (List Int)
  nodata : Int
deriving DecidableEq

/-- Elementwise combination of two same-grid two-dimensional arrays, the
numpy behaviour on a common grid. -/
def zip2D (f : Int → Int → Int) (a b : List (List Int)) : List (List Int) :=
  List.zipWith (List.zipWith f) a b

/-- Cell accessor for a two-dimensional array (row-major, defaulting outside
the grid). -/
def cell2D (a : List (List Int)) (i j : Nat) : Int :=
  (a.getD i []).getD j 0

/-- `create_chm` (pdal.py:379-391): the sentinel is taken from the DTM band
only; `arr = dsm - dtm` elementwise; then `arr[dsm_arr == nodata] = nodata`
masks exactly the cells where the DSM equals the DTM sentinel; the output
carries the DTM sentinel as its no-data value. -/
def create_chm (dtm dsm : Raster2D) : Raster2D :=
  let nodata := dtm.nodata
  let dsm_arr := dsm.data
  let arr := zip2D (fun d t => d - t) dsm_arr dtm.data
  ⟨zip2D (fun d v => if d = nodata then nodata else v) dsm_arr arr, nodata⟩

/- ------------------------------------------------------------------ -/
/- classify (pdal.py:263-302)                                          -/
/- ------------------------------------------------------------------ -/

/-- Modelled from the spec: `class_params` lives in l2d/utils.py, which is
absent from src/.  Spec section 4.3: it resolves slope and cellsize to the
caller overrides or to boundary-type defaults; the default pair of the
boundary is passed in as `siteDefaults`. -/
def class_params (siteDefaults : Str × Str) (slope cellsize : Option Str) : Str × Str :=
  (slope.getD siteDefaults.1, cellsize.getD siteDefaults.2)

/-- Modelled from the spec: `class_suffix` lives in l2d/utils.py, which is
absent from src/.  Spec section 4.3 says only that the filename suffix
deterministically encodes slope, cellsize and the user suffix; the claims
need nothing beyond determinism, so a tagged concatenation stands in. -/
def class_suffix (slope cellsize suffix : Str) : Str :=
  suffix ++ ("_s".data) ++ slope ++ ("_c".data) ++ cellsize ++ (".las".data)

/-- The external side effects of `classify`, in the order the source performs
them: writing the merged temp las file through the pipeline run, the
pipeline invocation itself, the `pdal ground` invocation, and the temp-file
removal. -/
inductive PdalAction where
  | mkTempLas (path : Str)
  | runPipeline
  | runPdalGround (fin fout : Str)
  | removeTemp (path : Str)
deriving DecidableEq

/-- What a `classify` call yields: the returned path and the trace of
external side effects performed. -/
structure ClassifyResult where
  fout : Str
  actions : List PdalAction
deriving DecidableEq

/-- The deterministic output path of `classify` (pdal.py:273-274). -/
def classify_fout (siteBasename : Option Str) (slope cellsize outdir suffix : Str) : Str :=
  let base := match siteBasename with | none => [] | some b => b ++ ("_".data)
  joinPath (abspath outdir) (base ++ class_suffix slope cellsize suffix)

/-- The output path of `classify` after parameter resolution. -/
def classify_path (siteBasename : Option Str) (siteDefaults : Str × Str)
    (slope0 cellsize0 : Option Str) (outdir suffix : Str) : Str :=
  let sc := class_params siteDefaults slope0 cellsize0
  classify_fout siteBasename sc.1 sc.2 outdir suffix

/-- `classify` (pdal.py:263-302).  `present` is the `os.path.exists` oracle
at entry; `groundProduces` says whether the `pdal ground` step leaves the
output on disk (the source re-checks existence at pdal.py:298 before
removing the temp file); `tmpName` is the uuid4 stem of the temp las file.
On a cache hit (output already present) nothing at all is done; on a miss
the merged temp file is written and `pdal ground` run, and the temp file is
removed only when the final output exists afterwards.  The computed output
path is returned unconditionally. -/
def classify (present : Str → Bool) (groundProduces : Bool) (tmpName : Str)
    (filenames : List Str) (siteBasename : Option Str)
    (siteDefaults : Str × Str) (slope0 cellsize0 : Option Str)
    (outdir suffix : Str) : ClassifyResult :=
  let fout := classify_path siteBasename siteDefaults slope0 cellsize0 outdir suffix
  if present fout then ⟨fout, []⟩
  else
    let ftmp := joinPath (abspath outdir) (tmpName ++ (".las".data))
    let acts := [PdalAction.mkTempLas ftmp, PdalAction.runPipeline,
                 PdalAction.runPdalGround ftmp fout]
    if groundProduces then ⟨fout, acts ++ [PdalAction.removeTemp ftmp]⟩
    else ⟨fout, acts⟩

/- ------------------------------------------------------------------ -/
/- create_dem / create_dems (pdal.py:305-376)                          -/
/- ------------------------------------------------------------------ -/

/-- Modelled from the spec: `dem_products` lives in l2d/utils.py, which is
absent from src/.  Spec sections 3 and 4.4: the default product set is a
fixed lookup on demtype over names such as den, max, min, idw; the claims
are generic over the exact table. -/
def dem_products (demtype : Str) : List Str :=
  if demtype = ("dsm".data) then [("den".data), ("max".data)]
  else if demtype = ("dtm".data) then [("den".data), ("min".data), ("idw".data)]
  else [("den".data)]

/-- The per-radius output stem of `create_dem` (pdal.py:344-345). -/
def create_dem_bname (siteBasename : Option Str) (outdir demtype radius suffix : Str) : Str :=
  let b := match siteBasename with | none => [] | some s => s ++ ("_".data)
  joinPath (abspath outdir) (b ++ demtype ++ ("_r".data) ++ radius ++ suffix)

/-- The per-product output path of `create_dem` (pdal.py:351). -/
def create_dem_product_fout (siteBasename : Option Str)
    (outdir demtype radius suffix product : Str) : Str :=
  create_dem_bname siteBasename outdir demtype radius suffix
    ++ (".".data) ++ product ++ (".tif".data)

/-- The product-to-path mapping `create_dem` returns (pdal.py:338-376,
specifically the `fouts` dictionary of line 351); the gridding pipeline side
effects do not bear on the claims about the mapping. -/
def create_dem (siteBasename : Option Str) (outdir demtype radius suffix : Str)
    (products0 : Option (List Str)) : List (Str × Str) :=
  let products := products0.getD (dem_products demtype)
  products.map (fun o => (o, create_dem_product_fout siteBasename outdir demtype radius suffix o))

/-- The gap-filled output path chosen inside `create_dems` (pdal.py:325-326). -/
def gapfill_fout (siteBasename : Option Str) (outdir demtype suffix product : Str) : Str :=
  let b := match siteBasename with | none => [] | some s => s ++ ("_".data)
  joinPath outdir (b ++ demtype ++ suffix ++ (".".data) ++ product ++ (".tif".data))

/-- `create_dems` (pdal.py:305-335): run `create_dem` once per radius,
transpose the list of per-radius product maps into a per-product list of
per-radius paths keyed by the first maps keys, then, when gap-filling is
requested, point every product except den at the gap-filled output path
(den keeps its first-radius path); without gap-filling every product keeps
its first-radius path. -/
def create_dems (radius : List Str) (demtype : Str) (siteBasename : Option Str)
    (gapfill : Bool) (outdir suffix : Str) (products0 : Option (List Str)) :
    List (Str × Str) :=
  let fouts := radius.map (fun rad => create_dem siteBasename outdir demtype rad suffix products0)
  let keys := (fouts.headD []).map Prod.fst
  let fnames := keys.map (fun p => (p, fouts.filterMap (fun m => List.lookup p m)))
  if gapfill then
    fnames.map (fun pr =>
      if pr.1 = ("den".data) then (pr.1, pr.2.headD [])
      else (pr.1, gapfill_fout siteBasename outdir demtype suffix pr.1))
  else
    fnames.map (fun pr => (pr.1, pr.2.headD []))

/- ------------------------------------------------------------------ -/
/- Helper lemmas                                                       -/
/- ------------------------------------------------------------------ -/

/-- `sortStrings` is a permutation of its input. -/
theorem sortStrings_perm (l : List Str) : List.Perm (sortStrings l) l :=
  List.perm_insertionSort _ l

/-- `sortStrings` output is sorted in the lexicographic order of `List Char`. -/
theorem sortStrings_sorted (l : List Str) :
    List.Sorted (fun a b : Str => a ≤ b) (sortStrings l) :=
  List.sorted_insertionSort _ l

/-- A member of the sorted list is a member of the input. -/
theorem mem_of_mem_sortStrings {l : List Str} {x : Str} (h : x ∈ sortStrings l) : x ∈ l :=
  (sortStrings_perm l).mem_iff.mp h

/-- Sorting a nonempty list is nonempty. -/
theorem sortStrings_ne_nil {l : List Str} (h : l ≠ []) : sortStrings l ≠ [] := by
  intro h0
  have hp := sortStrings_perm l
  rw [h0] at hp
  exact h hp.symm.eq_nil

/-- The default head of the sorted version of a nonempty list is a member of
the list. -/
theorem headD_sortStrings_mem {l : List Str} (h : l ≠ []) :
    (sortStrings l).headD [] ∈ l := by
  have hne := sortStrings_ne_nil h
  obtain ⟨a, as, hs⟩ := List.exists_cons_of_ne_nil hne
  rw [hs]
  exact mem_of_mem_sortStrings (by rw [hs]; exact List.mem_cons_self a as)

/-- Folding `_xml_add_reader` over a filename list appends one Reader element
per filename, in order, to the children of the parent. -/
theorem foldl_add_reader (filenames : List Str) (xml : Xml) :
    filenames.foldl _xml_add_reader xml =
      { xml with children := xml.children ++ filenames.map readerXml } := by
  induction filenames generalizing xml with
  | nil => cases xml <;> simp
  | cons f fs ih =>
      rw [List.foldl_cons, ih]
      simp [_xml_add_reader]

/-- Looking a key up in a map-built association list finds the tabulated
value. -/
theorem lookup_map_pair {β : Type} (l : List Str) (g : Str → β) (q : Str)
    (hq : q ∈ l) :
    List.lookup q (l.map fun p => (p, g p)) = some (g q) := by
  induction l with
  | nil => cases hq
  | cons a as ih =>
      by_cases h : q = a
      · subst h
        simp [List.lookup]
      · have hmem : q ∈ as := by
          rcases List.mem_cons.mp hq with h1 | h1
          · exact absurd h1 h
          · exact h1
        have hbeq : (q == a) = false := beq_eq_false_iff_ne.mpr h
        rw [List.map_cons]
        simp only [List.lookup, hbeq]
        exact ih hmem

/-- First projections of a map-built association list. -/
theorem map_fst_map_pair {β : Type} (l : List Str) (g : Str → β) :
    (l.map fun p => (p, g p)).map Prod.fst = l := by
  induction l with
  | nil => rfl
  | cons a as ih => simp only [List.map_cons, ih]

/-- Cells of the working buffer that already hold a value are never changed
by the progressive fill. -/
theorem foldl_fillStep_ne (d : Int) (imgs : List Raster) (arr : Nat → Int)
    (i : Nat) (h : arr i ≠ d) :
    (imgs.foldl (fun a img => fillStep d a img.cell) arr) i = arr i := by
  induction imgs generalizing arr with
  | nil => rfl
  | cons img rest ih =>
      have hstep : fillStep d arr img.cell i = arr i := by
        simp [fillStep, h]
      have h2 : fillStep d arr img.cell i ≠ d := by rw [hstep]; exact h
      rw [List.foldl_cons, ih _ h2, hstep]

/-- When the buffer and every raster of the stack hold only the sentinel,
the progressive fill leaves only the sentinel. -/
theorem foldl_fillStep_all (d : Int) (imgs : List Raster) (arr : Nat → Int)
    (h : ∀ i, arr i = d) (h2 : ∀ img ∈ imgs, ∀ i, img.cell i = d) :
    ∀ i, (imgs.foldl (fun a img => fillStep d a img.cell) arr) i = d := by
  induction imgs generalizing arr with
  | nil => exact h
  | cons img rest ih =>
      intro i
      rw [List.foldl_cons]
      refine ih _ ?_ (fun im hm => h2 im (List.mem_cons_of_mem _ hm)) i
      intro j
      simp [fillStep, h j, h2 img (List.mem_cons_self _ _) j]

/- ------------------------------------------------------------------ -/
/- Claim theorems                                                      -/
/- ------------------------------------------------------------------ -/

/-- C9: in `_xml_add_readers`, a merge Filter node is inserted if and only if
more than one filename is given, and with exactly one filename the single
Reader element attaches directly to the parent with no Merge node. -/
theorem C9_merge_iff_multiple (xml : Xml) (filenames : List Str) (f : Str) :
    mergeCount (_xml_add_readers xml filenames) =
      mergeCount xml + (if 1 < filenames.length then 1 else 0) ∧
    _xml_add_readers xml [f] =
      { xml with children := xml.children ++ [readerXml f] } := by
  constructor
  · by_cases h : 1 < filenames.length
    · simp [_xml_add_readers, h, mergeCount, List.countP_append, List.countP_cons,
        foldl_add_reader]
    · simp only [_xml_add_readers, h, if_false, foldl_add_reader, mergeCount,
        List.countP_append]
      have hz : List.countP
          (fun c => c.tag == ("Filter".data) && c.attr == ("filters.merge".data))
          (filenames.map readerXml) = 0 := by
        induction filenames with
        | nil => rfl
        | cons a as ih => simpa [readerXml] using ih
      rw [hz]
  · have h1 : ¬ (1 < ([f] : List Str).length) := by simp
    simp only [_xml_add_readers, h1, if_false, foldl_add_reader]
    rfl

/-- C4: `gap_fill` raises its empty-input error exactly on the empty filename
list, and on a nonempty list it returns a filled raster rather than this
error. -/
theorem C4_gap_fill_empty_input (filenames : List Str) (read : Str → Raster)
    (numcells : Nat) (interp : List (Nat × Int) → List Nat → Nat → Int) :
    (gap_fill filenames read numcells interp = .error .emptyInput ↔ filenames = []) ∧
    (filenames ≠ [] → ∃ r, gap_fill filenames read numcells interp = .ok r) := by
  by_cases h : filenames.length = 0
  · have he : filenames = [] := List.length_eq_zero.mp h
    constructor
    · simp [gap_fill, h, he]
    · intro hne; exact absurd he hne
  · constructor
    · simp only [gap_fill, h, if_false]
      constructor
      · intro hc; cases hc
      · intro hc
        rw [hc] at h
        exact absurd rfl h
    · intro _
      simp only [gap_fill, h, if_false]
      exact ⟨_, rfl⟩

/-- C2 counterexample: the `create_dem` output paths for radii 2 and 10 of the
same product sort lexicographically with the radius-10 path FIRST, although
2 < 10, so the raster consumed first by `gap_fill` is not the one of smallest
radius: consumption order is not ascending-radius order. -/
theorem C2_counterexample :
    List.lookup ("max".data)
        (create_dem none ("/tmp/out".data) ("dtm".data) ("2".data) [] (some [("max".data)])) =
      some ("/tmp/out/dtm_r2.max.tif".data) ∧
    List.lookup ("max".data)
        (create_dem none ("/tmp/out".data) ("dtm".data) ("10".data) [] (some [("max".data)])) =
      some ("/tmp/out/dtm_r10.max.tif".data) ∧
    sortStrings [("/tmp/out/dtm_r2.max.tif".data), ("/tmp/out/dtm_r10.max.tif".data)] =
      [("/tmp/out/dtm_r10.max.tif".data), ("/tmp/out/dtm_r2.max.tif".data)] ∧
    (2 : Nat) < 10 := by
  refine ⟨rfl, rfl, ?_, by norm_num⟩
  decide

/-- C2 (amended): `gap_fill` consumes its rasters in ascending lexicographic
order of their file paths - `sortStrings` yields a permutation of the input
that is sorted in the string order of `List Char` - which coincides with
ascending numeric radius only when the radius substrings happen to compare
lexicographically as they do numerically. -/
theorem C2_gap_fill_order_lexicographic (filenames : List Str) :
    List.Sorted (fun a b : Str => a ≤ b) (sortStrings filenames) ∧
    List.Perm (sortStrings filenames) filenames :=
  ⟨sortStrings_sorted filenames, sortStrings_perm filenames⟩

/-- C1: in `gap_fill`, each raster after the first overwrites only the cells
of the working buffer still equal to the no-data sentinel (the `fillStep`
identity), and consequently, whenever the first raster in consumption order
holds a valid value at a cell, the final output holds exactly that value at
that cell, whatever any later raster holds there. -/
theorem C1_gap_fill_first_wins (filenames : List Str) (read : Str → Raster)
    (numcells : Nat) (interp : List (Nat × Int) → List Nat → Nat → Int)
    (d : Int) (i : Nat)
    (hlen : 2 ≤ filenames.length)
    (hshare : ∀ f ∈ filenames, (read f).nodata = d)
    (hvalid : (read ((sortStrings filenames).headD [])).cell i ≠ d) :
    (∀ (arr img : Nat → Int) (j : Nat),
        fillStep d arr img j = if arr j = d then img j else arr j) ∧
    (gap_fill filenames read numcells interp).map (fun r => r.cell i) =
      .ok ((read ((sortStrings filenames).headD [])).cell i) := by
  refine ⟨fun arr img j => rfl, ?_⟩
  have hne : filenames ≠ [] := by
    intro h0
    rw [h0] at hlen
    exact absurd hlen (by norm_num)
  have hlen0 : ¬ (filenames.length = 0) := by
    intro h0
    exact hne (List.length_eq_zero.mp h0)
  obtain ⟨a, as, hs⟩ := List.exists_cons_of_ne_nil (sortStrings_ne_nil hne)
  have hheadD : (sortStrings filenames).headD [] = a := by rw [hs]; rfl
  have hamem : a ∈ filenames :=
    mem_of_mem_sortStrings (by rw [hs]; exact List.mem_cons_self a as)
  have hnodata : (read a).nodata = d := hshare a hamem
  rw [hheadD] at hvalid ⊢
  simp only [gap_fill, hlen0, if_false, hs, List.map_cons, List.headD_cons,
    List.drop_succ_cons, List.drop_zero, hnodata, Except.map]
  have hfold : ((as.map read).foldl (fun a img => fillStep d a img.cell)
      (read a).cell) i = (read a).cell i :=
    foldl_fillStep_ne d (as.map read) (read a).cell i hvalid
  simp [hfold, hvalid]

/-- A concrete two-raster reading oracle for exercising the gap-fill
theorems: file a.tif holds 5 at cell 0 and the sentinel elsewhere, file
b.tif holds 7 everywhere; both declare sentinel -9999. -/
def c1Read : Str → Raster :=
  fun f =>
    if f = (("a.tif").data) then ⟨fun i => if i = 0 then 5 else -9999, -9999⟩
    else ⟨fun _ => 7, -9999⟩

/-- C1 witness: on the concrete stack [b.tif, a.tif] the sorted consumption
order starts at a.tif, whose valid value 5 at cell 0 survives to the output
even though b.tif holds 7 there. -/
theorem C1_witness :
    (gap_fill [(("b.tif").data), (("a.tif").data)] c1Read 1 (fun _ _ _ => 0)).map
        (fun r => r.cell 0) = .ok 5 := by
  have h := C1_gap_fill_first_wins [(("b.tif").data), (("a.tif").data)] c1Read 1
    (fun _ _ _ => 0) (-9999) 0 (by norm_num) (by decide) (by decide)
  exact h.2

/-- C5 counterexample: a one-raster stack that is no-data everywhere is NOT
rejected with an interpolation error - `gap_fill` succeeds and writes the
value the external interpolation oracle supplies (here 0) into every cell. -/
theorem C5_counterexample :
    (gap_fill [(("a.tif").data)] (fun _ => ⟨fun _ => -9999, -9999⟩) 4
        (fun _ _ _ => 0)).map (fun r => r.cell 0) = .ok 0 := by
  rfl

/-- C5 (amended): `gap_fill` contains no guard for zero known-good points:
when every cell of every raster of a nonempty stack equals the shared
sentinel, it still succeeds, hands the external interpolator an EMPTY list of
known-good points together with all grid locations as bad, and writes
whatever values that oracle returns; any failure on zero points would arise
inside the external scattered-interpolation library, not in this code, and no
interpolation error is raised here. -/
theorem C5_gap_fill_no_zero_point_guard (filenames : List Str)
    (read : Str → Raster) (numcells : Nat)
    (interp : List (Nat × Int) → List Nat → Nat → Int) (d : Int)
    (hne : filenames ≠ [])
    (hnod : ∀ f ∈ filenames, (read f).nodata = d)
    (hall : ∀ f ∈ filenames, ∀ i, (read f).cell i = d) :
    ∃ r, gap_fill filenames read numcells interp = .ok r ∧
      ∀ i, i < numcells → r.cell i = interp [] (List.range numcells) i := by
  have hlen0 : ¬ (filenames.length = 0) := by
    intro h0
    exact hne (List.length_eq_zero.mp h0)
  obtain ⟨a, as, hs⟩ := List.exists_cons_of_ne_nil (sortStrings_ne_nil hne)
  have hamem : a ∈ filenames :=
    mem_of_mem_sortStrings (by rw [hs]; exact List.mem_cons_self a as)
  have hnodata : (read a).nodata = d := hnod a hamem
  have hallfold : ∀ i, ((as.map read).foldl (fun acc img => fillStep d acc img.cell)
      (read a).cell) i = d := by
    refine foldl_fillStep_all d (as.map read) (read a).cell (hall a hamem) ?_
    intro img hmem i
    obtain ⟨f, hf, hfe⟩ := List.mem_map.mp hmem
    have hfl : f ∈ filenames :=
      mem_of_mem_sortStrings (by rw [hs]; exact List.mem_cons_of_mem _ hf)
    rw [← hfe]
    exact hall f hfl i
  simp only [gap_fill, hlen0, if_false, hs, List.map_cons, List.headD_cons,
    List.drop_succ_cons, List.drop_zero, hnodata]
  refine ⟨_, rfl, ?_⟩
  intro i hi
  have hgood : (List.range numcells).filter
      (fun j => ((as.map read).foldl (fun acc img => fillStep d acc img.cell)
        (read a).cell) j != d) = [] := by
    rw [List.filter_eq_nil_iff]
    intro j _
    simp [hallfold j]
  have hbad : (List.range numcells).filter
      (fun j => ((as.map read).foldl (fun acc img => fillStep d acc img.cell)
        (read a).cell) j == d) = List.range numcells := by
    rw [List.filter_eq_self]
    intro j _
    simp [hallfold j]
  simp [hgood, hbad, hallfold i]

/-- C5 witness: the amended theorem applied to the concrete all-no-data
one-raster stack, with the interpolation oracle returning the cell index. -/
theorem C5_witness :
    ∃ r, gap_fill [(("a.tif").data)] (fun _ => ⟨fun _ => -9999, -9999⟩) 2
        (fun _ _ i => (i : Int)) = .ok r ∧
      ∀ i, i < 2 → r.cell i =
        (fun (_ : List (Nat × Int)) (_ : List Nat) (i : Nat) => (i : Int))
          [] (List.range 2) i :=
  C5_gap_fill_no_zero_point_guard [(("a.tif").data)]
    (fun _ => ⟨fun _ => -9999, -9999⟩) 2 (fun _ _ i => (i : Int)) (-9999)
    (by decide) (fun _ _ => rfl) (fun _ _ _ => rfl)

/-- Cell access through an elementwise combination of two same-grid arrays. -/
theorem cell2D_zip2D (f : Int → Int → Int) (a b : List (List Int)) (i j : Nat)
    (hia : i < a.length) (hib : i < b.length)
    (hja : j < (a.getD i []).length) (hjb : j < (b.getD i []).length) :
    cell2D (zip2D f a b) i j = f (cell2D a i j) (cell2D b i j) := by
  have hga : a.getD i [] = a[i] := List.getD_eq_getElem a [] hia
  have hgb : b.getD i [] = b[i] := List.getD_eq_getElem b [] hib
  have hja2 : j < (a[i]).length := by rw [← hga]; exact hja
  have hjb2 : j < (b[i]).length := by rw [← hgb]; exact hjb
  have hiz : i < (List.zipWith (List.zipWith f) a b).length := by
    rw [List.length_zipWith]
    exact lt_min hia hib
  have hjz : j < (List.zipWith f (a[i]) (b[i])).length := by
    rw [List.length_zipWith]
    exact lt_min hja2 hjb2
  unfold cell2D zip2D
  rw [List.getD_eq_getElem _ [] hiz, List.getElem_zipWith,
    List.getD_eq_getElem _ 0 hjz, List.getElem_zipWith, hga, hgb,
    List.getD_eq_getElem _ 0 hja2, List.getD_eq_getElem _ 0 hjb2]

/-- The per-cell semantics of `create_chm` on a common grid: the output cell
is the DTM sentinel where the DSM equals the DTM sentinel, and the DSM minus
DTM difference elsewhere. -/
theorem create_chm_cell (dtm dsm : Raster2D) (i j : Nat)
    (hi1 : i < dtm.data.length) (hi2 : i < dsm.data.length)
    (hj1 : j < (dtm.data.getD i []).length) (hj2 : j < (dsm.data.getD i []).length) :
    cell2D (create_chm dtm dsm).data i j =
      (if cell2D dsm.data i j = dtm.nodata then dtm.nodata
       else cell2D dsm.data i j - cell2D dtm.data i j) := by
  have hiz : i < (zip2D (fun d t => d - t) dsm.data dtm.data).length := by
    unfold zip2D
    rw [List.length_zipWith]
    exact lt_min hi2 hi1
  have hjz : j < ((zip2D (fun d t => d - t) dsm.data dtm.data).getD i []).length := by
    unfold zip2D
    rw [List.getD_eq_getElem _ [] (by
      rw [List.length_zipWith]; exact lt_min hi2 hi1), List.getElem_zipWith,
      List.length_zipWith]
    refine lt_min ?_ ?_
    · rw [← List.getD_eq_getElem dsm.data [] hi2]; exact hj2
    · rw [← List.getD_eq_getElem dtm.data [] hi1]; exact hj1
  show cell2D (zip2D (fun d v => if d = dtm.nodata then dtm.nodata else v) dsm.data
      (zip2D (fun d t => d - t) dsm.data dtm.data)) i j = _
  rw [cell2D_zip2D _ dsm.data _ i j hi2 hiz hj2 hjz,
    cell2D_zip2D _ dsm.data dtm.data i j hi2 hi1 hj2 hj1]

/-- C3 counterexample: on the 2x2 scenario DTM [[10,10],[10,-9999]] and DSM
[[15,12],[20,8]] with sentinel -9999, `create_chm` does NOT produce
[[5,2],[10,-9999]]: at cell (1,1) the DSM holds 8, not the sentinel, so the
cell is not masked and holds 8 - (-9999) = 10007. -/
theorem C3_counterexample :
    (create_chm ⟨[[10, 10], [10, -9999]], -9999⟩ ⟨[[15, 12], [20, 8]], -9999⟩).data ≠
      [[5, 2], [10, -9999]] := by
  decide

/-- C3 (amended): on the 2x2 scenario the output is [[5,2],[10,10007]] - the
(1,1) cell is 8 - (-9999) because masking tests the DSM, not the DTM - and in
general `create_chm` computes per-cell DSM minus DTM, writing the sentinel
into exactly those cells where the DSM equals the sentinel. -/
theorem C3_chm_scenario_and_rule (dtm dsm : Raster2D) (i j : Nat)
    (hi1 : i < dtm.data.length) (hi2 : i < dsm.data.length)
    (hj1 : j < (dtm.data.getD i []).length) (hj2 : j < (dsm.data.getD i []).length) :
    (create_chm ⟨[[10, 10], [10, -9999]], -9999⟩ ⟨[[15, 12], [20, 8]], -9999⟩).data =
      [[5, 2], [10, 10007]] ∧
    cell2D (create_chm dtm dsm).data i j =
      (if cell2D dsm.data i j = dtm.nodata then dtm.nodata
       else cell2D dsm.data i j - cell2D dtm.data i j) :=
  ⟨by decide, create_chm_cell dtm dsm i j hi1 hi2 hj1 hj2⟩

/-- C3 witness: the amended per-cell rule evaluated at cell (1,1) of the
scenario rasters, where the DSM value 8 is valid and the output is 10007. -/
theorem C3_witness :
    cell2D (create_chm ⟨[[10, 10], [10, -9999]], -9999⟩
        ⟨[[15, 12], [20, 8]], -9999⟩).data 1 1 =
      (if cell2D [[15, 12], [20, 8]] 1 1 = (-9999 : Int) then (-9999 : Int)
       else cell2D [[15, 12], [20, 8]] 1 1 - cell2D [[10, 10], [10, -9999]] 1 1) :=
  (C3_chm_scenario_and_rule ⟨[[10, 10], [10, -9999]], -9999⟩
    ⟨[[15, 12], [20, 8]], -9999⟩ 1 1 (by decide) (by decide) (by decide) (by decide)).2

/-- C10: `create_chm` takes its sentinel from the DTM alone - the output
carries the DTM sentinel, the result does not depend on the sentinel the DSM
declares, and a DSM cell equal to the DSM sentinel is NOT masked whenever the
two sentinels differ: the subtraction result is written instead. -/
theorem C10_chm_dtm_sentinel_only (dtm dsm : Raster2D) (x : Int) (i j : Nat)
    (hi1 : i < dtm.data.length) (hi2 : i < dsm.data.length)
    (hj1 : j < (dtm.data.getD i []).length) (hj2 : j < (dsm.data.getD i []).length)
    (hdiff : dsm.nodata ≠ dtm.nodata)
    (hcell : cell2D dsm.data i j = dsm.nodata) :
    (create_chm dtm dsm).nodata = dtm.nodata ∧
    create_chm dtm { data := dsm.data, nodata := x } = create_chm dtm dsm ∧
    cell2D (create_chm dtm dsm).data i j =
      cell2D dsm.data i j - cell2D dtm.data i j := by
  refine ⟨rfl, rfl, ?_⟩
  rw [create_chm_cell dtm dsm i j hi1 hi2 hj1 hj2, if_neg]
  rw [hcell]
  exact hdiff

/-- C10 witness: with a DTM sentinel -9999 and a DSM sentinel -5, the DSM
no-data cell value -5 is not masked and the output holds -5 - 1 = -6. -/
theorem C10_witness :
    (create_chm ⟨[[1]], -9999⟩ ⟨[[-5]], -5⟩).nodata = (-9999 : Int) ∧
    create_chm ⟨[[1]], -9999⟩ { data := [[-5]], nodata := (7 : Int) } =
      create_chm ⟨[[1]], -9999⟩ ⟨[[-5]], -5⟩ ∧
    cell2D (create_chm ⟨[[1]], -9999⟩ ⟨[[-5]], -5⟩).data 0 0 =
      cell2D [[-5]] 0 0 - cell2D [[1]] 0 0 :=
  C10_chm_dtm_sentinel_only ⟨[[1]], -9999⟩ ⟨[[-5]], -5⟩ 7 0 0
    (by decide) (by decide) (by decide) (by decide) (by decide) (by decide)

/-- `classify` always returns its deterministic output path, whichever branch
runs. -/
theorem classify_returns_path (present : Str → Bool) (gp : Bool) (tmp : Str)
    (filenames : List Str) (sb : Option Str) (sd : Str × Str)
    (s0 c0 : Option Str) (outdir suffix : Str) :
    (classify present gp tmp filenames sb sd s0 c0 outdir suffix).fout =
      classify_path sb sd s0 c0 outdir suffix := by
  unfold classify
  by_cases h : present (classify_path sb sd s0 c0 outdir suffix) = true
  · simp [h]
  · simp only [Bool.not_eq_true] at h
    cases gp <;> simp [h]

/-- C6: when the deterministic output path of `classify` already exists, the
call performs no external action at all (no temp file, no pipeline run, no
ground run) and returns exactly that path; hence a second call with identical
parameters, seeing the path on disk, returns the same path and does no
work. -/
theorem C6_classify_cache_hit_idempotent
    (present presentSecond : Str → Bool) (gp gpSecond : Bool)
    (tmp tmpSecond : Str) (filenames : List Str) (sb : Option Str)
    (sd : Str × Str) (s0 c0 : Option Str) (outdir suffix : Str)
    (_hne : filenames ≠ [])
    (hcache : present (classify_path sb sd s0 c0 outdir suffix) = true) :
    classify present gp tmp filenames sb sd s0 c0 outdir suffix =
      ⟨classify_path sb sd s0 c0 outdir suffix, []⟩ ∧
    (presentSecond ((classify present gp tmp filenames sb sd s0 c0 outdir
        suffix).fout) = true →
      classify presentSecond gpSecond tmpSecond filenames sb sd s0 c0 outdir
          suffix =
        ⟨(classify present gp tmp filenames sb sd s0 c0 outdir suffix).fout,
          []⟩) := by
  constructor
  · simp [classify, hcache]
  · intro h2
    rw [classify_returns_path] at h2 ⊢
    simp [classify, h2]

/-- C6 witness: with the output path already on disk the call returns the
path with an empty action trace, as does the identical second call. -/
theorem C6_witness :
    classify (fun _ => true) false (("t").data) [(("f.las").data)] none
        ((("3").data), (("1").data)) none none (("/o").data) [] =
      ⟨classify_path none ((("3").data), (("1").data)) none none
        (("/o").data) [], []⟩ :=
  (C6_classify_cache_hit_idempotent (fun _ => true) (fun _ => true) false false
    (("t").data) (("t").data) [(("f.las").data)] none
    ((("3").data), (("1").data)) none none (("/o").data) []
    (by decide) rfl).1

/-- C7: on a cache miss, the merged temp point file is removed if and only if
the final classified output exists after the ground step; when the ground
step fails to produce it, the temp file stays behind, and `classify` still
returns the deterministic output path. -/
theorem C7_classify_temp_cleanup (present : Str → Bool) (gp : Bool)
    (tmp : Str) (filenames : List Str) (sb : Option Str) (sd : Str × Str)
    (s0 c0 : Option Str) (outdir suffix : Str)
    (hmiss : present (classify_path sb sd s0 c0 outdir suffix) = false) :
    (classify present gp tmp filenames sb sd s0 c0 outdir suffix).fout =
      classify_path sb sd s0 c0 outdir suffix ∧
    (PdalAction.removeTemp (joinPath (abspath outdir) (tmp ++ ((".las").data))) ∈
        (classify present gp tmp filenames sb sd s0 c0 outdir suffix).actions ↔
      gp = true) := by
  refine ⟨classify_returns_path present gp tmp filenames sb sd s0 c0 outdir
    suffix, ?_⟩
  have h : ¬ (present (classify_path sb sd s0 c0 outdir suffix) = true) := by
    simp [hmiss]
  cases gp <;> simp [classify, h]

/-- C7 witness: with no output on disk and a failing ground step the temp
file is not removed yet the deterministic path is still returned. -/
theorem C7_witness :
    (classify (fun _ => false) false (("t").data) [(("f.las").data)] none
        ((("3").data), (("1").data)) none none (("/o").data) []).fout =
      classify_path none ((("3").data), (("1").data)) none none
        (("/o").data) [] ∧
    (PdalAction.removeTemp (joinPath (abspath (("/o").data))
        ((("t").data) ++ ((".las").data))) ∈
      (classify (fun _ => false) false (("t").data) [(("f.las").data)] none
        ((("3").data), (("1").data)) none none (("/o").data) []).actions ↔
      false = true) :=
  C7_classify_temp_cleanup (fun _ => false) false (("t").data)
    [(("f.las").data)] none ((("3").data), (("1").data)) none none
    (("/o").data) [] rfl

/-- Closed form of `create_dems` on a nonempty radius list: one entry per
product, pointing at the first-radius path, except that with gap-filling
every product other than den points at the gap-filled output path. -/
theorem create_dems_cons (r : Str) (rs : List Str) (demtype : Str)
    (sb : Option Str) (gapfill : Bool) (outdir suffix : Str)
    (products0 : Option (List Str)) :
    create_dems (r :: rs) demtype sb gapfill outdir suffix products0 =
      (products0.getD (dem_products demtype)).map (fun p =>
        (p, if gapfill = true then
              (if p = (("den").data)
               then create_dem_product_fout sb outdir demtype r suffix p
               else gapfill_fout sb outdir demtype suffix p)
            else create_dem_product_fout sb outdir demtype r suffix p)) := by
  have hCD : ∀ rad, create_dem sb outdir demtype rad suffix products0 =
      (products0.getD (dem_products demtype)).map
        (fun o => (o, create_dem_product_fout sb outdir demtype rad suffix o)) :=
    fun rad => rfl
  cases gapfill with
  | false =>
      simp only [create_dems, List.map_cons, List.headD_cons, Bool.false_eq_true,
        if_false, List.map_map, hCD, map_fst_map_pair]
      refine List.map_congr_left ?_
      intro p hp
      have h1 : List.lookup p ((products0.getD (dem_products demtype)).map
          (fun o => (o, create_dem_product_fout sb outdir demtype r suffix o))) =
          some (create_dem_product_fout sb outdir demtype r suffix p) :=
        lookup_map_pair _ _ p hp
      simp [Function.comp, List.filterMap_cons, h1]
  | true =>
      simp only [create_dems, List.map_cons, List.headD_cons, if_true,
        List.map_map, hCD, map_fst_map_pair]
      refine List.map_congr_left ?_
      intro p hp
      have h1 : List.lookup p ((products0.getD (dem_products demtype)).map
          (fun o => (o, create_dem_product_fout sb outdir demtype r suffix o))) =
          some (create_dem_product_fout sb outdir demtype r suffix p) :=
        lookup_map_pair _ _ p hp
      by_cases hd : p = (("den").data)
      · rw [hd] at h1
        simp [Function.comp, hd, List.filterMap_cons, h1]
      · simp [Function.comp, hd]

/-- C8: for every radius list with at least one entry, the mapping
`create_dems` returns has exactly the default (or explicitly requested)
product set as its keys; with gap-filling requested the den product is never
gap-filled and keeps its first-radius path while every other product points
at the gap-filled output, and without gap-filling every product keeps its
first-radius path. -/
theorem C8_create_dems_product_mapping (radius : List Str) (demtype : Str)
    (sb : Option Str) (gapfill : Bool) (outdir suffix : Str)
    (products0 : Option (List Str)) (hradius : radius ≠ []) :
    (create_dems radius demtype sb gapfill outdir suffix products0).map
        Prod.fst = products0.getD (dem_products demtype) ∧
    (gapfill = true → ∀ p ∈ products0.getD (dem_products demtype),
      List.lookup p (create_dems radius demtype sb gapfill outdir suffix
          products0) =
        some (if p = (("den").data)
          then create_dem_product_fout sb outdir demtype (radius.headD [])
            suffix p
          else gapfill_fout sb outdir demtype suffix p)) ∧
    (gapfill = false → ∀ p ∈ products0.getD (dem_products demtype),
      List.lookup p (create_dems radius demtype sb gapfill outdir suffix
          products0) =
        some (create_dem_product_fout sb outdir demtype (radius.headD [])
          suffix p)) := by
  obtain ⟨r, rs, hr⟩ := List.exists_cons_of_ne_nil hradius
  subst hr
  rw [create_dems_cons]
  refine ⟨map_fst_map_pair _ _, ?_, ?_⟩
  · intro hg p hp
    subst hg
    have h1 := lookup_map_pair (products0.getD (dem_products demtype))
      (fun q => if (true : Bool) = true then
          (if q = (("den").data)
           then create_dem_product_fout sb outdir demtype r suffix q
           else gapfill_fout sb outdir demtype suffix q)
        else create_dem_product_fout sb outdir demtype r suffix q) p hp
    simpa using h1
  · intro hg p hp
    subst hg
    have h1 := lookup_map_pair (products0.getD (dem_products demtype))
      (fun q => if (false : Bool) = true then
          (if q = (("den").data)
           then create_dem_product_fout sb outdir demtype r suffix q
           else gapfill_fout sb outdir demtype suffix q)
        else create_dem_product_fout sb outdir demtype r suffix q) p hp
    simpa using h1

/-- C8 witness: two radii, demtype dsm with its default products den and max,
gap-filling requested: the keys are exactly den and max, den keeps its
first-radius path and max points at the gap-filled output. -/
theorem C8_witness :
    (create_dems [(("0.56").data), (("1.41").data)] (("dsm").data) none true
        (("/o").data) [] none).map Prod.fst =
      (none : Option (List Str)).getD (dem_products (("dsm").data)) ∧
    ((true : Bool) = true → ∀ p ∈ (none : Option (List Str)).getD
        (dem_products (("dsm").data)),
      List.lookup p (create_dems [(("0.56").data), (("1.41").data)]
          (("dsm").data) none true (("/o").data) [] none) =
        some (if p = (("den").data)
          then create_dem_product_fout none (("/o").data) (("dsm").data)
            ([(("0.56").data), (("1.41").data)].headD []) [] p
          else gapfill_fout none (("/o").data) (("dsm").data) [] p)) ∧
    ((true : Bool) = false → ∀ p ∈ (none : Option (List Str)).getD
        (dem_products (("dsm").data)),
      List.lookup p (create_dems [(("0.56").data), (("1.41").data)]
          (("dsm").data) none true (("/o").data) [] none) =
        some (create_dem_product_fout none (("/o").data) (("dsm").data)
          ([(("0.56").data), (("1.41").data)].headD []) [] p)) :=
  C8_create_dems_product_mapping [(("0.56").data), (("1.41").data)]
    (("dsm").data) none true (("/o").data) [] none (by decide)
